import Mathlib

set_option maxRecDepth 2000

/-!
Verification development for the compositor scheduling core
(refresh-rate policy engine, scheduler policy controller, composition
strategy chooser).

The refresh-rate policy engine (`RefreshRateConfigs`) ships in this tree
only through its unit-test suite
(`services/surfaceflinger/tests/unittests/RefreshRateConfigsTest.cpp`);
the implementation itself is absent.  The definitions below therefore
model it from the specification (each doc comment names the spec rules
rendered), keeping the behaviour pinned by the in-tree unit tests where
the spec's prose and its worked examples disagree.  All fps arithmetic
is carried out in exact rationals: the C++ float fps together with its
±ε tolerances is an approximation of these exact values, and the
spec's worked scenarios are stated directly in Hz.

`Scheduler::calculateRefreshRateType` and `Scheduler::registerLayer`
are embedded directly from `Scheduler/Scheduler.cpp`, which is present
in the tree.
-/

namespace scheduler

/-- Vote types of a `LayerRequirement`, as in
`RefreshRateConfigs::LayerVoteType`. -/
inductive LayerVoteType where
  | NoVote
  | Min
  | Max
  | Heuristic
  | ExplicitDefault
  | ExplicitExactOrMultiple
  deriving DecidableEq, Repr

/-- A per-layer refresh-rate vote (`RefreshRateConfigs::LayerRequirement`).
The debug-only `name` string is omitted. -/
structure LayerRequirement where
  vote : LayerVoteType
  desiredRefreshRate : ℚ
  weight : ℚ
  deriving DecidableEq, Repr

/-- One hardware-supported display mode (`RefreshRateConfigs::RefreshRate`).
`fps` is the exact rate in Hz; `vsyncPeriod` is the descriptive period in
nanoseconds (the C++ code derives float `fps ≈ 1e9 / vsyncPeriod` at
construction).  The debug-only `name` string is omitted. -/
structure RefreshRate where
  configId : ℕ
  vsyncPeriod : ℕ
  configGroup : ℕ
  fps : ℚ
  deriving DecidableEq, Repr

/-- The allowed refresh-rate range plus preferred default (spec §3
`Policy {defaultConfigId, minFps, maxFps}`). -/
structure Policy where
  defaultConfigId : ℕ
  minFps : ℚ
  maxFps : ℚ
  deriving DecidableEq, Repr

/-- State of the refresh-rate catalog / policy engine. -/
structure RefreshRateConfigs where
  configs : List RefreshRate
  currentConfigId : ℕ
  policy : Policy
  deriving DecidableEq, Repr

/-- Tolerance used when comparing fps against a policy range
(spec §4.1: "ε ≈ 0.01 fps to absorb float rounding"). -/
def fpsEpsilon : ℚ := 1 / 100

/-- Element of `init :: rest` with the smallest `fps` (first one on ties). -/
def argminFps (init : RefreshRate) (rest : List RefreshRate) : RefreshRate :=
  rest.foldl (fun best r => if r.fps < best.fps then r else best) init

/-- Element of `init :: rest` with the largest `fps` (first one on ties). -/
def argmaxFps (init : RefreshRate) (rest : List RefreshRate) : RefreshRate :=
  rest.foldl (fun best r => if best.fps < r.fps then r else best) init

/-- Element of `init :: rest` maximizing `score`; among equal scores the
one with the smaller `fps` wins, and among equal (score, fps) the earliest. -/
def pickBest (score : RefreshRate → ℚ) (init : RefreshRate) (rest : List RefreshRate) :
    RefreshRate :=
  rest.foldl
    (fun best r =>
      if score best < score r ∨ (score r = score best ∧ r.fps < best.fps) then r else best)
    init

/-- A placeholder refresh rate returned by queries on an (invalid) empty
catalog; the catalog invariant (spec §4.1: construction fails on an empty
list) keeps it unreachable. -/
def nullRefreshRate : RefreshRate := ⟨0, 0, 0, 0⟩

/-- Modelled from the spec: catalog query `getMinRefreshRate` — the config
with the smallest fps in the full (policy-unfiltered) catalog. -/
def getMinRefreshRate (s : RefreshRateConfigs) : RefreshRate :=
  match s.configs with
  | [] => nullRefreshRate
  | r :: rs => argminFps r rs

/-- Modelled from the spec: catalog query `getMaxRefreshRate` — the config
with the largest fps in the full (policy-unfiltered) catalog. -/
def getMaxRefreshRate (s : RefreshRateConfigs) : RefreshRate :=
  match s.configs with
  | [] => nullRefreshRate
  | r :: rs => argmaxFps r rs

/-- Modelled from the spec: `getCurrentRefreshRate` returns the config the
hardware is actually running (spec §4.1 `setCurrentConfigId` records it
independently of policy). -/
def getCurrentRefreshRate (s : RefreshRateConfigs) : RefreshRate :=
  match s.configs.find? (fun r => r.configId == s.currentConfigId) with
  | some r => r
  | none => nullRefreshRate

/-- Modelled from the spec: `setCurrentConfigId(id)` records the hardware's
actual active config, independent of policy. -/
def setCurrentConfigId (s : RefreshRateConfigs) (id : ℕ) : RefreshRateConfigs :=
  { s with currentConfigId := id }

/-- Config group of the policy's default config, when the default id is in
the catalog. -/
def defaultConfigGroup (s : RefreshRateConfigs) : Option ℕ :=
  (s.configs.find? (fun r => r.configId == s.policy.defaultConfigId)).map
    (fun r => r.configGroup)

/-- Whether config `r` passes the policy filter of `allowedRates`:
its group matches the policy default's group and its fps lies in
[minFps − ε, maxFps + ε] (spec §4.1). -/
def inPolicyB (s : RefreshRateConfigs) (r : RefreshRate) : Bool :=
  (some r.configGroup == defaultConfigGroup s) &&
  decide (s.policy.minFps - fpsEpsilon ≤ r.fps) &&
  decide (r.fps ≤ s.policy.maxFps + fpsEpsilon)

/-- Modelled from the spec (§4.1 min/maxByPolicy): the configs whose group
matches the policy default's group and whose fps lies in
[minFps − ε, maxFps + ε]; falls back to the full unfiltered set if the
filter yields nothing (defensive; cannot occur with a validated policy). -/
def allowedRates (s : RefreshRateConfigs) : List RefreshRate :=
  let filtered := s.configs.filter (inPolicyB s)
  if filtered.isEmpty then s.configs else filtered

/-- Modelled from the spec: `minByPolicy` — the smallest-fps config among
the policy-allowed set. -/
def getMinRefreshRateByPolicy (s : RefreshRateConfigs) : RefreshRate :=
  match allowedRates s with
  | [] => getCurrentRefreshRate s
  | r :: rs => argminFps r rs

/-- Modelled from the spec: `maxByPolicy` — the largest-fps config among
the policy-allowed set. -/
def getMaxRefreshRateByPolicy (s : RefreshRateConfigs) : RefreshRate :=
  match allowedRates s with
  | [] => getCurrentRefreshRate s
  | r :: rs => argmaxFps r rs

/-- Modelled from the spec (§4.1 `setPolicy`, §7 policy validation errors):
validates that the requested default config exists, that the range is not
inverted, and that the range (± ε) brackets the default config's fps
(the reference test rejects `setPolicy(60Hz, 20, 40)` on a {60Hz} catalog);
returns a negative error code and performs no mutation on failure. -/
def setPolicy (s : RefreshRateConfigs) (defaultId : ℕ) (minF maxF : ℚ) :
    ℤ × RefreshRateConfigs :=
  match s.configs.find? (fun r => r.configId == defaultId) with
  | none => (-1, s)
  | some r =>
    if minF ≤ maxF ∧ minF - fpsEpsilon ≤ r.fps ∧ r.fps ≤ maxF + fpsEpsilon then
      (0, { s with policy := ⟨defaultId, minF, maxF⟩ })
    else
      (-1, s)

/-- Executable floor on ℚ (agrees with `Int.floor`, see `ratFloor_eq`). -/
def ratFloor (x : ℚ) : ℤ := x.num / (x.den : ℤ)

/-- Executable ceiling on ℚ (agrees with `Int.ceil`, see `ratCeil_eq`). -/
def ratCeil (x : ℚ) : ℤ := -ratFloor (-x)

/-- The bounded cadence-fitting loop of the content score: starting from a
normalized phase error `d`, repeatedly fold it (`d ↦ 2d − 1`) until it is
absorbed or the frame-fit bound (10) is reached, counting iterations. -/
def cadenceIter (d : ℚ) (iter : ℕ) : ℕ → ℕ
  | 0 => iter
  | fuel + 1 =>
    if 0 < d ∧ iter < 10 then cadenceIter (2 * d - 1) (iter + 1) fuel else iter

/-- Modelled from the spec (§4.2 rule 4, §8 scenarios 3 and 5): the score a
`Heuristic` / `ExplicitExactOrMultiple` layer desiring rate `d` gives to a
config running at `f`.  A config slower than the content scores poorly
(ratio down-weighted by the frame-fit bound); an exact integer multiple of
the content rate scores 1 (the "LCM-ish smooth cover" / multiple-of-24
preference); otherwise the score decays with the cadence error. -/
def contentFitScore (d f : ℚ) : ℚ :=
  if f < d then
    (f / d) / 11
  else
    let x := f / d
    let frac := x - ratFloor x
    if frac = 0 then 1
    else 1 / (cadenceIter |2 * frac - 1| 2 8 : ℚ)

/-- Modelled from the spec (§4.2 rule 4): the score an `ExplicitDefault`
layer desiring rate `d` gives to a config at `f`: the fraction of its
frames the layer will actually render, assuming it renders once per
`m` vsyncs for the smallest `m` covering its frame time. -/
def explicitDefaultFitScore (d f : ℚ) : ℚ :=
  let x := f / d
  let m : ℤ := max 1 (ratCeil x)
  min 1 (x / (m : ℚ))

/-- Weighted score one layer contributes to a config at rate `f`
(`NoVote`/`Min` layers contribute nothing; `Max` is decided before
scoring, spec §4.2 rule 2). -/
def layerScore (l : LayerRequirement) (f : ℚ) : ℚ :=
  match l.vote with
  | LayerVoteType.NoVote => 0
  | LayerVoteType.Min => 0
  | LayerVoteType.Max => 0
  | LayerVoteType.Heuristic => l.weight * contentFitScore l.desiredRefreshRate f
  | LayerVoteType.ExplicitDefault => l.weight * explicitDefaultFitScore l.desiredRefreshRate f
  | LayerVoteType.ExplicitExactOrMultiple =>
      l.weight * contentFitScore l.desiredRefreshRate f

/-- Total weighted score of a config at rate `f` over a layer set. -/
def configScore (layers : List LayerRequirement) (f : ℚ) : ℚ :=
  (layers.map (fun l => layerScore l f)).sum

/-- The layers that take part in the vote: `NoVote` layers are ignored
entirely (spec §4.2 rule 5). -/
def activeLayers (layers : List LayerRequirement) : List LayerRequirement :=
  layers.filter (fun l => !(l.vote == LayerVoteType.NoVote))

/-- Modelled from the spec (§4.2 `LayerVoteAggregator.chooseRefreshRate`,
first matching rule wins), with the rules the spec leaves to its worked
examples (§8 scenarios, declared the authoritative behavioral contract in
§9) pinned by the in-tree unit tests:
1. no (effective) layers → hardware's current config;
2. any `Max` vote → maxByPolicy;
3. only `Min` (and `NoVote`) layers → minByPolicy — per the unit tests a
   `Min` vote alongside Heuristic/Explicit votes is otherwise ignored;
4. touch active → maxByPolicy;
5. otherwise each remaining layer scores every policy-allowed config and
   the best total score wins, ties broken toward the lower fps (as fixed
   by the unit tests).
`NoVote` layers are ignored entirely (spec §4.2 rule 5). -/
def getRefreshRateForContentV2 (s : RefreshRateConfigs)
    (layers : List LayerRequirement) (touchActive : Bool) : RefreshRate :=
  if (activeLayers layers).isEmpty then getCurrentRefreshRate s
  else if (activeLayers layers).any (fun l => l.vote == LayerVoteType.Max) then
    getMaxRefreshRateByPolicy s
  else if (activeLayers layers).all (fun l => l.vote == LayerVoteType.Min) then
    getMinRefreshRateByPolicy s
  else if touchActive then getMaxRefreshRateByPolicy s
  else
    match allowedRates s with
    | [] => getCurrentRefreshRate s
    | r :: rs => pickBest (fun c => configScore (activeLayers layers) c.fps) r rs

/-- `f` is a positive exact integer multiple of `d` (so content at rate `d`
fits the display rate `f` with a perfectly even cadence). -/
def isMultipleOf (f d : ℚ) : Prop := ∃ k : ℤ, 1 ≤ k ∧ f = k * d

/-- Executable test for `isMultipleOf`, valid when `0 < d`. -/
def isMultipleOfB (f d : ℚ) : Bool := decide (d ≤ f) && ((f / d).den == 1)

end scheduler

namespace Scheduler

/-- `Scheduler::TimerState`. -/
inductive TimerState where
  | Reset
  | Expired
  deriving DecidableEq, Repr

/-- `Scheduler::TouchState`. -/
inductive TouchState where
  | Inactive
  | Active
  deriving DecidableEq, Repr

/-- `Scheduler::ContentDetectionState`. -/
inductive ContentDetectionState where
  | Off
  | On
  deriving DecidableEq, Repr

/-- The scheduler's feature-state snapshot (`Scheduler::mFeatures`),
guarded by `mFeatureStateLock` in the C++ code. -/
structure SchedulerFeatures where
  contentDetection : ContentDetectionState
  contentRefreshRate : ℕ
  touch : TouchState
  idleTimer : TimerState
  displayPowerTimer : TimerState
  isDisplayPowerStateNormal : Bool
  configId : ℕ
  deriving DecidableEq, Repr

/-- The queries `Scheduler::calculateRefreshRateType` makes on its
`RefreshRateConfigs` collaborator, abstracted as a record: current config,
min/max-by-policy config, whether switching is supported, and the config
chosen for a detected content refresh rate (`getRefreshRateForContent`). -/
structure RefreshRateQueries where
  refreshRateSwitchingSupported : Bool
  currentConfigId : ℕ
  maxByPolicyConfigId : ℕ
  minByPolicyConfigId : ℕ
  contentChosenConfigId : ℕ → ℕ

/-- Embedded from `Scheduler::calculateRefreshRateType`
(`Scheduler/Scheduler.cpp` lines 491-521): the sequence of early returns
of the C++ function, in source order. -/
def calculateRefreshRateType (c : RefreshRateQueries) (fs : SchedulerFeatures) : ℕ :=
  if !c.refreshRateSwitchingSupported then c.currentConfigId
  else if !fs.isDisplayPowerStateNormal || fs.displayPowerTimer == TimerState.Reset then
    c.maxByPolicyConfigId
  else if fs.touch == TouchState.Active then c.maxByPolicyConfigId
  else if fs.idleTimer == TimerState.Expired then c.minByPolicyConfigId
  else if fs.contentDetection == ContentDetectionState.Off then c.maxByPolicyConfigId
  else c.contentChosenConfigId fs.contentRefreshRate

/-- First-match-wins evaluation of an ordered rule list: the value of the
first rule whose guard holds, else the default. -/
def firstMatching (dflt : ℕ) : List (Bool × ℕ) → ℕ
  | [] => dflt
  | (guard, value) :: rest => if guard then value else firstMatching dflt rest

/-- The priority order stated by the spec for `calculateRefreshRateType`
(§4.6): (1) switching unsupported → current config; (2) display power
abnormal or its grace timer just reset → maxByPolicy; (3) touch active →
maxByPolicy; (4) idle timer expired → minByPolicy; (5) content detection
off → maxByPolicy; (6) else the config chosen for the detected content
rate — first match wins. -/
def calculateRefreshRateTypePriority (c : RefreshRateQueries) (fs : SchedulerFeatures) : ℕ :=
  firstMatching (c.contentChosenConfigId fs.contentRefreshRate)
    [(!c.refreshRateSwitchingSupported, c.currentConfigId),
     (!fs.isDisplayPowerStateNormal || fs.displayPowerTimer == TimerState.Reset,
      c.maxByPolicyConfigId),
     (fs.touch == TouchState.Active, c.maxByPolicyConfigId),
     (fs.idleTimer == TimerState.Expired, c.minByPolicyConfigId),
     (fs.contentDetection == ContentDetectionState.Off, c.maxByPolicyConfigId)]

/-- `InputWindowInfo::TYPE_WALLPAPER` (window type of wallpaper layers). -/
def TYPE_WALLPAPER : ℕ := 2013

/-- Embedded from `Scheduler::registerLayer`
(`Scheduler/Scheduler.cpp` lines 335-344): when content detection is
enabled (`mLayerHistory` present), a layer is registered in layer history
with `lowFps` = the catalog's minimum fps and `highFps` = that same
minimum for wallpaper layers, the catalog's maximum fps otherwise;
returns the `(lowFps, highFps)` pair handed to
`LayerHistory::registerLayer`, or `none` when content detection is off. -/
def registerLayer (hasLayerHistory : Bool) (windowType : ℕ)
    (s : scheduler.RefreshRateConfigs) : Option (ℚ × ℚ) :=
  if !hasLayerHistory then none
  else
    let lowFps := (scheduler.getMinRefreshRate s).fps
    let highFps := if windowType == TYPE_WALLPAPER then lowFps
      else (scheduler.getMaxRefreshRate s).fps
    some (lowFps, highFps)

end Scheduler

namespace compositionengine

/-- Hardware-requested composition changes (opaque payload of the HWC
composition-change query). -/
structure DeviceRequestedChanges where
  changedTypes : List (ℕ × ℕ)
  displayRequests : ℕ
  layerRequests : List (ℕ × ℕ)
  deriving DecidableEq, Repr

/-- The per-display composition flags produced by
`Display::chooseCompositionStrategy`. -/
structure OutputCompositionState where
  usesClientComposition : Bool
  usesDeviceComposition : Bool
  deriving DecidableEq, Repr

/-- Modelled from the spec (§4.7 `CompositionStrategyChooser`, §7 hardware
query failures); the implementation (`Display::chooseCompositionStrategy`)
is absent from the tree, only its unit tests are present.  Steps:
start from the client-only default; a display with no hardware composition
identity short-circuits to client-only; otherwise query the hardware for
device composition changes, passing whether any layer requires client
composition; on hardware error fall back to client-only composition for
the frame (fail-safe, the error is consumed, not propagated); otherwise
apply the changes and finalize
`usesClientComposition = !allLayersDeviceComposited`,
`usesDeviceComposition = anyLayerDeviceComposited` from the post-apply
layer states (supplied here as the two final predicates). -/
def chooseCompositionStrategy (displayId : Option ℕ)
    (anyLayersRequireClientComposition : Bool)
    (getDeviceCompositionChanges : ℕ → Bool → Except ℤ (Option DeviceRequestedChanges))
    (anyLayerDeviceComposited : Bool) (allLayersDeviceComposited : Bool) :
    OutputCompositionState :=
  match displayId with
  | none => ⟨true, false⟩
  | some id =>
    match getDeviceCompositionChanges id anyLayersRequireClientComposition with
    | Except.error _ => ⟨true, false⟩
    | Except.ok _ => ⟨!allLayersDeviceComposited, anyLayerDeviceComposited⟩

end compositionengine

namespace scheduler

/-! ### Concrete instances, mirroring the catalogs and layer sets of
`RefreshRateConfigsTest.cpp` (fps exact in Hz, vsync periods and config
ids as in the test fixture). -/

def rate30 : RefreshRate := ⟨4, 33333334, 0, 30⟩

def rate60 : RefreshRate := ⟨0, 16666667, 0, 60⟩

def rate72 : RefreshRate := ⟨1, 13888889, 0, 72⟩

def rate90 : RefreshRate := ⟨2, 11111111, 0, 90⟩

def rate120 : RefreshRate := ⟨3, 8333333, 0, 120⟩

/-- A permissive policy (full fps range) defaulting to config `dflt`,
as after construction. -/
def openPolicy (dflt : ℕ) : Policy := ⟨dflt, 0, 1000⟩

def catalog_60 : RefreshRateConfigs := ⟨[rate60], 0, openPolicy 0⟩

def catalog_60_90 : RefreshRateConfigs := ⟨[rate60, rate90], 0, openPolicy 0⟩

def catalog_30_60_90 : RefreshRateConfigs := ⟨[rate30, rate60, rate90], 0, openPolicy 0⟩

def catalog_30_60_72_90_120 : RefreshRateConfigs :=
  ⟨[rate30, rate60, rate72, rate90, rate120], 0, openPolicy 0⟩

def heuristicLayer (d : ℚ) : LayerRequirement := ⟨LayerVoteType.Heuristic, d, 1⟩

def eeomLayer (d : ℚ) : LayerRequirement := ⟨LayerVoteType.ExplicitExactOrMultiple, d, 1⟩

def minLayer : LayerRequirement := ⟨LayerVoteType.Min, 0, 1⟩

def maxLayer : LayerRequirement := ⟨LayerVoteType.Max, 0, 1⟩

def noVoteLayer : LayerRequirement := ⟨LayerVoteType.NoVote, 0, 1⟩

end scheduler


namespace scheduler

theorem ratFloor_eq (x : ℚ) : ratFloor x = ⌊x⌋ := by
  rw [ratFloor, Rat.floor_def]

theorem ratCeil_eq (x : ℚ) : ratCeil x = ⌈x⌉ := by
  rw [ratCeil, ratFloor_eq, Int.floor_neg, neg_neg]

theorem isMultipleOfB_iff {f d : ℚ} (hd : 0 < d) :
    isMultipleOfB f d = true ↔ isMultipleOf f d := by
  unfold isMultipleOfB isMultipleOf
  rw [Bool.and_eq_true, decide_eq_true_iff, beq_iff_eq]
  constructor
  · rintro ⟨hle, hden⟩
    have hnum : ((f / d).num : ℚ) = f / d := by
      conv_rhs => rw [← Rat.num_div_den (f / d), hden]
      simp
    refine ⟨(f / d).num, ?_, ?_⟩
    · have hx : (1 : ℚ) ≤ f / d := (one_le_div hd).mpr hle
      rw [← hnum] at hx
      exact_mod_cast hx
    · have hc : f / d * d = f := div_mul_cancel₀ f (ne_of_gt hd)
      rw [hnum, hc]
  · rintro ⟨k, hk, rfl⟩
    have hkq : (1 : ℚ) ≤ (k : ℚ) := by exact_mod_cast hk
    constructor
    · calc d = 1 * d := (one_mul d).symm
        _ ≤ (k : ℚ) * d := mul_le_mul_of_nonneg_right hkq (le_of_lt hd)
    · have hq : (k : ℚ) * d / d = (k : ℚ) := by field_simp
      rw [hq, Rat.den_intCast]

/-! ### Selection lemmas -/

theorem pickBest_mem (g : RefreshRate → ℚ) (init : RefreshRate) (rest : List RefreshRate) :
    pickBest g init rest ∈ init :: rest := by
  induction rest generalizing init with
  | nil => simp [pickBest]
  | cons r rs ih =>
    have hstep : pickBest g init (r :: rs) =
        pickBest g (if g init < g r ∨ (g r = g init ∧ r.fps < init.fps) then r else init) rs :=
      rfl
    rw [hstep]
    by_cases h : g init < g r ∨ (g r = g init ∧ r.fps < init.fps)
    · rw [if_pos h]
      exact List.mem_cons_of_mem _ (ih r)
    · rw [if_neg h]
      rcases List.mem_cons.mp (ih init) with h1 | h1
      · rw [h1]; exact List.mem_cons_self _ _
      · exact List.mem_cons_of_mem _ (List.mem_cons_of_mem _ h1)

theorem pickBest_le (g : RefreshRate → ℚ) (init : RefreshRate) (rest : List RefreshRate) :
    ∀ x ∈ init :: rest, g x ≤ g (pickBest g init rest) ∧
      (g x = g (pickBest g init rest) → (pickBest g init rest).fps ≤ x.fps) := by
  induction rest generalizing init with
  | nil =>
    intro x hx
    rcases List.mem_cons.mp hx with h | h
    · subst h; exact ⟨le_refl _, fun _ => le_refl _⟩
    · exact absurd h (List.not_mem_nil x)
  | cons r rs ih =>
    intro x hx
    have hstep : pickBest g init (r :: rs) =
        pickBest g (if g init < g r ∨ (g r = g init ∧ r.fps < init.fps) then r else init) rs :=
      rfl
    -- relation between the element dropped at this step and the new head
    by_cases h : g init < g r ∨ (g r = g init ∧ r.fps < init.fps)
    · rw [hstep, if_pos h]
      have hd : g init ≤ g r ∧ (g init = g r → r.fps ≤ init.fps) := by
        rcases h with h | ⟨he, hf⟩
        · exact ⟨le_of_lt h, fun he => absurd he (ne_of_lt h)⟩
        · exact ⟨le_of_eq he.symm, fun _ => le_of_lt hf⟩
      have hr := ih r r (List.mem_cons_self _ _)
      rcases List.mem_cons.mp hx with hx1 | hx1
      · subst hx1
        refine ⟨le_trans hd.1 hr.1, fun he => ?_⟩
        have h1 : g x = g r := le_antisymm hd.1 (by rw [he]; exact hr.1)
        have h2 : g r = g (pickBest g r rs) := by rw [← h1, he]
        exact le_trans (hr.2 h2) (hd.2 h1)
      · exact ih r x hx1
    · rw [hstep, if_neg h]
      push_neg at h
      rcases List.mem_cons.mp hx with hx1 | hx1
      · subst hx1
        exact ih x x (List.mem_cons_self _ _)
      · rcases List.mem_cons.mp hx1 with hx2 | hx2
        · subst hx2
          have hd : g x ≤ g init ∧ (g x = g init → init.fps ≤ x.fps) :=
            ⟨h.1, fun he => h.2 he⟩
          have hi := ih init init (List.mem_cons_self _ _)
          refine ⟨le_trans hd.1 hi.1, fun he => ?_⟩
          have h1 : g x = g init := le_antisymm hd.1 (by rw [he]; exact hi.1)
          have h2 : g init = g (pickBest g init rs) := by rw [← h1, he]
          exact le_trans (hi.2 h2) (hd.2 h1)
        · exact ih init x (List.mem_cons_of_mem _ hx2)

theorem argmaxFps_ge (init : RefreshRate) (rest : List RefreshRate) :
    ∀ x ∈ init :: rest, x.fps ≤ (argmaxFps init rest).fps := by
  induction rest generalizing init with
  | nil =>
    intro x hx
    rcases List.mem_cons.mp hx with h | h
    · subst h; exact le_refl _
    · exact absurd h (List.not_mem_nil x)
  | cons r rs ih =>
    intro x hx
    have hstep : argmaxFps init (r :: rs) =
        argmaxFps (if init.fps < r.fps then r else init) rs := rfl
    rw [hstep]
    by_cases h : init.fps < r.fps
    · rw [if_pos h]
      rcases List.mem_cons.mp hx with hx1 | hx1
      · exact hx1 ▸ le_trans (le_of_lt h) (ih r r (List.mem_cons_self _ _))
      · rcases List.mem_cons.mp hx1 with hx2 | hx2
        · exact hx2 ▸ ih r r (List.mem_cons_self _ _)
        · exact ih r x (List.mem_cons_of_mem _ hx2)
    · rw [if_neg h]
      rcases List.mem_cons.mp hx with hx1 | hx1
      · exact hx1 ▸ ih init init (List.mem_cons_self _ _)
      · rcases List.mem_cons.mp hx1 with hx2 | hx2
        · exact hx2 ▸ le_trans (le_of_not_lt h) (ih init init (List.mem_cons_self _ _))
        · exact ih init x (List.mem_cons_of_mem _ hx2)

/-! ### Score lemmas -/

theorem cadenceIter_ge (d : ℚ) (iter fuel : ℕ) : iter ≤ cadenceIter d iter fuel := by
  induction fuel generalizing d iter with
  | zero => exact le_refl _
  | succ fuel ih =>
    rw [cadenceIter]
    by_cases h : 0 < d ∧ iter < 10
    · rw [if_pos h]
      exact le_trans (Nat.le_succ _) (ih _ _)
    · rw [if_neg h]

theorem contentFitScore_eq_one {d f : ℚ} (hd : 0 < d) (h : isMultipleOf f d) :
    contentFitScore d f = 1 := by
  obtain ⟨k, hk, rfl⟩ := h
  have hkq : (1 : ℚ) ≤ (k : ℚ) := by exact_mod_cast hk
  have hge : d ≤ (k : ℚ) * d := by
    calc d = 1 * d := (one_mul d).symm
      _ ≤ (k : ℚ) * d := mul_le_mul_of_nonneg_right hkq (le_of_lt hd)
  have hx : (k : ℚ) * d / d = (k : ℚ) := by field_simp
  rw [contentFitScore, if_neg (not_lt.mpr hge), hx]
  simp only [ratFloor_eq]
  simp

theorem contentFitScore_lt_one {d f : ℚ} (hd : 0 < d) (_hf : 0 < f)
    (h : ¬ isMultipleOf f d) : contentFitScore d f < 1 := by
  rw [contentFitScore]
  simp only [ratFloor_eq]
  by_cases hlt : f < d
  · rw [if_pos hlt]
    have h1 : f / d < 1 := (div_lt_one hd).mpr hlt
    have h11 : (0 : ℚ) < 11 := by norm_num
    exact (div_lt_one h11).mpr (by linarith)
  · rw [if_neg hlt]
    have hx1 : (1 : ℚ) ≤ f / d := (one_le_div hd).mpr (le_of_not_lt hlt)
    by_cases hfrac : f / d - ⌊f / d⌋ = 0
    · exfalso
      apply h
      refine ⟨⌊f / d⌋, ?_, ?_⟩
      · have : (1 : ℚ) ≤ (⌊f / d⌋ : ℚ) := by
          have := sub_eq_zero.mp hfrac
          linarith [this ▸ hx1]
        exact_mod_cast this
      · have heq : (⌊f / d⌋ : ℚ) = f / d := (sub_eq_zero.mp hfrac).symm
        rw [heq, div_mul_cancel₀ f (ne_of_gt hd)]
    · rw [if_neg hfrac]
      have hit : (2 : ℕ) ≤ cadenceIter |2 * (f / d - ⌊f / d⌋) - 1| 2 8 := cadenceIter_ge _ _ _
      have hit2 : (2 : ℚ) ≤ (cadenceIter |2 * (f / d - ⌊f / d⌋) - 1| 2 8 : ℚ) := by
        exact_mod_cast hit
      have hpos : (0 : ℚ) < (cadenceIter |2 * (f / d - ⌊f / d⌋) - 1| 2 8 : ℚ) := by linarith
      calc 1 / (cadenceIter |2 * (f / d - ⌊f / d⌋) - 1| 2 8 : ℚ)
          ≤ 1 / 2 := by
            apply one_div_le_one_div_of_le
            · norm_num
            · exact hit2
        _ < 1 := by norm_num

theorem contentFitScore_le_one {d : ℚ} (hd : 0 < d) (f : ℚ) : contentFitScore d f ≤ 1 := by
  rw [contentFitScore]
  simp only [ratFloor_eq]
  by_cases hlt : f < d
  · rw [if_pos hlt]
    have h1 : f / d < 1 := (div_lt_one hd).mpr hlt
    have h11 : (0 : ℚ) < 11 := by norm_num
    exact le_of_lt ((div_lt_one h11).mpr (by linarith))
  · rw [if_neg hlt]
    by_cases hfrac : f / d - ⌊f / d⌋ = 0
    · rw [if_pos hfrac]
    · rw [if_neg hfrac]
      have hit : (2 : ℕ) ≤ cadenceIter |2 * (f / d - ⌊f / d⌋) - 1| 2 8 := cadenceIter_ge _ _ _
      have hit2 : (1 : ℚ) ≤ (cadenceIter |2 * (f / d - ⌊f / d⌋) - 1| 2 8 : ℚ) := by
        have : (2 : ℚ) ≤ (cadenceIter |2 * (f / d - ⌊f / d⌋) - 1| 2 8 : ℚ) := by
          exact_mod_cast hit
        linarith
      calc 1 / (cadenceIter |2 * (f / d - ⌊f / d⌋) - 1| 2 8 : ℚ)
          ≤ 1 / 1 := one_div_le_one_div_of_le one_pos hit2
        _ = 1 := by norm_num

theorem explicitDefaultFitScore_le_one (d f : ℚ) : explicitDefaultFitScore d f ≤ 1 :=
  min_le_left _ _

theorem explicitDefaultFitScore_eq_one {d f : ℚ} (hd : 0 < d) (h : isMultipleOf f d) :
    explicitDefaultFitScore d f = 1 := by
  obtain ⟨k, hk, rfl⟩ := h
  have hx : (k : ℚ) * d / d = (k : ℚ) := by field_simp
  rw [explicitDefaultFitScore]
  simp only [ratCeil_eq, hx, Int.ceil_intCast]
  have hm : max 1 k = k := max_eq_right hk
  rw [hm]
  have hk0 : (k : ℚ) ≠ 0 := by
    have : (1 : ℚ) ≤ (k : ℚ) := by exact_mod_cast hk
    linarith
  rw [div_self hk0]
  simp

theorem explicitDefaultFitScore_lt_one {d f : ℚ} (hd : 0 < d) (hf : 0 < f)
    (h : ¬ isMultipleOf f d) : explicitDefaultFitScore d f < 1 := by
  rw [explicitDefaultFitScore]
  simp only [ratCeil_eq]
  have hx : 0 < f / d := div_pos hf hd
  have hceil : (1 : ℤ) ≤ ⌈f / d⌉ := Int.ceil_pos.mpr hx
  have hm : max 1 ⌈f / d⌉ = ⌈f / d⌉ := max_eq_right hceil
  rw [hm]
  have hne : f / d ≠ (⌈f / d⌉ : ℚ) := by
    intro heq
    apply h
    refine ⟨⌈f / d⌉, hceil, ?_⟩
    rw [← heq, div_mul_cancel₀ f (ne_of_gt hd)]
  have hlt : f / d < (⌈f / d⌉ : ℚ) := lt_of_le_of_ne (Int.le_ceil _) hne
  have hcpos : (0 : ℚ) < (⌈f / d⌉ : ℚ) := by exact_mod_cast hceil
  exact lt_of_le_of_lt (min_le_right _ _) ((div_lt_one hcpos).mpr hlt)

/-- For a `Heuristic` / `ExplicitDefault` layer with positive weight and
desired rate, a config earns the layer's full weight exactly when its fps
is an exact integer multiple of the desired rate; otherwise it earns
strictly less. -/
theorem layerScore_le_weight {l : LayerRequirement} {f : ℚ}
    (hv : l.vote = LayerVoteType.Heuristic ∨ l.vote = LayerVoteType.ExplicitDefault)
    (hw : 0 < l.weight) (hd : 0 < l.desiredRefreshRate) :
    layerScore l f ≤ l.weight := by
  rcases hv with hv | hv <;> rw [layerScore, hv]
  · calc l.weight * contentFitScore l.desiredRefreshRate f
        ≤ l.weight * 1 := by
          exact mul_le_mul_of_nonneg_left (contentFitScore_le_one hd f) (le_of_lt hw)
      _ = l.weight := mul_one _
  · calc l.weight * explicitDefaultFitScore l.desiredRefreshRate f
        ≤ l.weight * 1 := by
          exact mul_le_mul_of_nonneg_left (explicitDefaultFitScore_le_one _ f) (le_of_lt hw)
      _ = l.weight := mul_one _

theorem layerScore_eq_weight_iff {l : LayerRequirement} {f : ℚ}
    (hv : l.vote = LayerVoteType.Heuristic ∨ l.vote = LayerVoteType.ExplicitDefault)
    (hw : 0 < l.weight) (hd : 0 < l.desiredRefreshRate) (hf : 0 < f) :
    layerScore l f = l.weight ↔ isMultipleOf f l.desiredRefreshRate := by
  constructor
  · intro heq
    by_contra hnm
    have hlt : layerScore l f < l.weight := by
      rcases hv with hv | hv <;> rw [layerScore, hv]
      · calc l.weight * contentFitScore l.desiredRefreshRate f
            < l.weight * 1 := by
              exact mul_lt_mul_of_pos_left (contentFitScore_lt_one hd hf hnm) hw
          _ = l.weight := mul_one _
      · calc l.weight * explicitDefaultFitScore l.desiredRefreshRate f
            < l.weight * 1 := by
              exact mul_lt_mul_of_pos_left (explicitDefaultFitScore_lt_one hd hf hnm) hw
          _ = l.weight := mul_one _
    exact absurd heq (ne_of_lt hlt)
  · intro hm
    rcases hv with hv | hv <;> rw [layerScore, hv]
    · rw [contentFitScore_eq_one hd hm, mul_one]
    · rw [explicitDefaultFitScore_eq_one hd hm, mul_one]



/-! ### Concrete evaluation facts for the test catalogs -/

def layersHeu24_60 : List LayerRequirement := [heuristicLayer 24, heuristicLayer 60]

def layersHeu24_48 : List LayerRequirement := [heuristicLayer 24, heuristicLayer 48]

def layersMinHeu24 : List LayerRequirement := [minLayer, heuristicLayer 24]

theorem inPolicyB_all5_30 : inPolicyB catalog_30_60_72_90_120 rate30 = true := by
  with_unfolding_all decide

theorem inPolicyB_all5_60 : inPolicyB catalog_30_60_72_90_120 rate60 = true := by
  with_unfolding_all decide

theorem inPolicyB_all5_72 : inPolicyB catalog_30_60_72_90_120 rate72 = true := by
  with_unfolding_all decide

theorem inPolicyB_all5_90 : inPolicyB catalog_30_60_72_90_120 rate90 = true := by
  with_unfolding_all decide

theorem inPolicyB_all5_120 : inPolicyB catalog_30_60_72_90_120 rate120 = true := by
  with_unfolding_all decide

theorem allowedRates_all5 :
    allowedRates catalog_30_60_72_90_120 = [rate30, rate60, rate72, rate90, rate120] := by
  rw [allowedRates]
  have hc : catalog_30_60_72_90_120.configs = [rate30, rate60, rate72, rate90, rate120] := rfl
  simp only [hc, List.filter_cons, inPolicyB_all5_30, inPolicyB_all5_60, inPolicyB_all5_72,
    inPolicyB_all5_90, inPolicyB_all5_120, if_true, List.filter_nil, List.isEmpty_cons,
    Bool.false_eq_true, if_false]

theorem inPolicyB_369_30 : inPolicyB catalog_30_60_90 rate30 = true := by
  with_unfolding_all decide

theorem inPolicyB_369_60 : inPolicyB catalog_30_60_90 rate60 = true := by
  with_unfolding_all decide

theorem inPolicyB_369_90 : inPolicyB catalog_30_60_90 rate90 = true := by
  with_unfolding_all decide

theorem allowedRates_369 : allowedRates catalog_30_60_90 = [rate30, rate60, rate90] := by
  rw [allowedRates]
  have hc : catalog_30_60_90.configs = [rate30, rate60, rate90] := rfl
  simp only [hc, List.filter_cons, inPolicyB_369_30, inPolicyB_369_60, inPolicyB_369_90,
    if_true, List.filter_nil, List.isEmpty_cons, Bool.false_eq_true, if_false]

theorem inPolicyB_69_60 : inPolicyB catalog_60_90 rate60 = true := by
  with_unfolding_all decide

theorem inPolicyB_69_90 : inPolicyB catalog_60_90 rate90 = true := by
  with_unfolding_all decide

theorem allowedRates_69 : allowedRates catalog_60_90 = [rate60, rate90] := by
  rw [allowedRates]
  have hc : catalog_60_90.configs = [rate60, rate90] := rfl
  simp only [hc, List.filter_cons, inPolicyB_69_60, inPolicyB_69_90,
    if_true, List.filter_nil, List.isEmpty_cons, Bool.false_eq_true, if_false]

theorem minByPolicy_369 : getMinRefreshRateByPolicy catalog_30_60_90 = rate30 := by
  rw [getMinRefreshRateByPolicy, allowedRates_369]
  simp only [argminFps, List.foldl_cons, List.foldl_nil]
  norm_num [rate30, rate60, rate90]

theorem maxByPolicy_369 : getMaxRefreshRateByPolicy catalog_30_60_90 = rate90 := by
  rw [getMaxRefreshRateByPolicy, allowedRates_369]
  simp only [argmaxFps, List.foldl_cons, List.foldl_nil]
  norm_num [rate30, rate60, rate90]

theorem minByPolicy_69 : getMinRefreshRateByPolicy catalog_60_90 = rate60 := by
  rw [getMinRefreshRateByPolicy, allowedRates_69]
  simp only [argminFps, List.foldl_cons, List.foldl_nil]
  norm_num [rate60, rate90]

theorem activeLayers_heu24_60 : activeLayers layersHeu24_60 = layersHeu24_60 := by
  with_unfolding_all decide

theorem activeLayers_heu24_48 : activeLayers layersHeu24_48 = layersHeu24_48 := by
  with_unfolding_all decide

theorem activeLayers_minHeu24 : activeLayers layersMinHeu24 = layersMinHeu24 := by
  with_unfolding_all decide

theorem score_heu24_60_at30 : configScore layersHeu24_60 30 = 25 / 66 := by
  with_unfolding_all decide

theorem score_heu24_60_at60 : configScore layersHeu24_60 60 = 3 / 2 := by
  with_unfolding_all decide

theorem score_heu24_60_at72 : configScore layersHeu24_60 72 = 5 / 4 := by
  with_unfolding_all decide

theorem score_heu24_60_at90 : configScore layersHeu24_60 90 = 5 / 6 := by
  with_unfolding_all decide

theorem score_heu24_60_at120 : configScore layersHeu24_60 120 = 2 := by
  with_unfolding_all decide

theorem score_heu24_48_at30 : configScore layersHeu24_48 30 = 103 / 264 := by
  with_unfolding_all decide

theorem score_heu24_48_at60 : configScore layersHeu24_48 60 = 5 / 6 := by
  with_unfolding_all decide

theorem score_heu24_48_at72 : configScore layersHeu24_48 72 = 3 / 2 := by
  with_unfolding_all decide

theorem score_heu24_48_at90 : configScore layersHeu24_48 90 = 7 / 12 := by
  with_unfolding_all decide

theorem score_heu24_48_at120 : configScore layersHeu24_48 120 = 3 / 2 := by
  with_unfolding_all decide

theorem score_minHeu24_at30 : configScore layersMinHeu24 30 = 1 / 3 := by
  with_unfolding_all decide

theorem score_minHeu24_at60 : configScore layersMinHeu24 60 = 1 / 2 := by
  with_unfolding_all decide

theorem score_minHeu24_at90 : configScore layersMinHeu24 90 = 1 / 3 := by
  with_unfolding_all decide

theorem v2_heu24_60 :
    getRefreshRateForContentV2 catalog_30_60_72_90_120 layersHeu24_60 false = rate120 := by
  rw [getRefreshRateForContentV2]
  simp only [allowedRates_all5, activeLayers_heu24_60]
  simp only [pickBest, List.foldl_cons, List.foldl_nil]
  norm_num [rate30, rate60, rate72, rate90, rate120, score_heu24_60_at30, score_heu24_60_at60,
    score_heu24_60_at72, score_heu24_60_at90, score_heu24_60_at120]
  simp [layersHeu24_60, heuristicLayer]

theorem v2_heu24_48 :
    getRefreshRateForContentV2 catalog_30_60_72_90_120 layersHeu24_48 false = rate72 := by
  rw [getRefreshRateForContentV2]
  simp only [allowedRates_all5, activeLayers_heu24_48]
  simp only [pickBest, List.foldl_cons, List.foldl_nil]
  norm_num [rate30, rate60, rate72, rate90, rate120, score_heu24_48_at30, score_heu24_48_at60,
    score_heu24_48_at72, score_heu24_48_at90, score_heu24_48_at120]
  simp [layersHeu24_48, heuristicLayer]

theorem v2_minHeu24 :
    getRefreshRateForContentV2 catalog_30_60_90 layersMinHeu24 false = rate60 := by
  rw [getRefreshRateForContentV2]
  simp only [allowedRates_369, activeLayers_minHeu24]
  simp only [pickBest, List.foldl_cons, List.foldl_nil]
  norm_num [rate30, rate60, rate90, score_minHeu24_at30, score_minHeu24_at60, score_minHeu24_at90]
  simp [layersMinHeu24, heuristicLayer, minLayer]


/-! ### Claim theorems -/

/-- C1: for every layer set containing at least one layer with vote type
`Max`, `getRefreshRateForContentV2` returns the config equal to
`maxByPolicy`, regardless of the vote types and desired rates of all other
layers in the set (and of the touch state). -/
theorem maxVote_forces_maxByPolicy (s : RefreshRateConfigs)
    (layers : List LayerRequirement) (touchActive : Bool)
    (h : ∃ l ∈ layers, l.vote = LayerVoteType.Max) :
    getRefreshRateForContentV2 s layers touchActive = getMaxRefreshRateByPolicy s := by
  obtain ⟨l, hmem, hv⟩ := h
  have hl : l ∈ activeLayers layers := by
    rw [activeLayers]
    exact List.mem_filter.mpr ⟨hmem, by simp [hv]⟩
  have h1 : (activeLayers layers).isEmpty = false := by
    cases hact : activeLayers layers with
    | nil => rw [hact] at hl; exact absurd hl (List.not_mem_nil l)
    | cons a as => rfl
  have h2 : (activeLayers layers).any (fun x => x.vote == LayerVoteType.Max) = true :=
    List.any_eq_true.mpr ⟨l, hl, by simp [hv]⟩
  rw [getRefreshRateForContentV2]
  simp [h1, h2]

/-- C1 witness: on the {30,60,90}Hz catalog, the layer set {Min, Max}
resolves to maxByPolicy, namely the 90Hz config. -/
theorem maxVote_forces_maxByPolicy_witness :
    getRefreshRateForContentV2 catalog_30_60_90 [minLayer, maxLayer] false =
      getMaxRefreshRateByPolicy catalog_30_60_90 ∧
    getMaxRefreshRateByPolicy catalog_30_60_90 = rate90 := by
  constructor
  · exact maxVote_forces_maxByPolicy catalog_30_60_90 [minLayer, maxLayer] false
      ⟨maxLayer, by simp, rfl⟩
  · exact maxByPolicy_369

/-- C2 counterexample: on the {30,60,90}Hz catalog the layer set
{Min, Heuristic@24} contains a `Min` vote and no `Max` vote, yet the
chosen rate is the 60Hz config, not the minByPolicy floor (30Hz): the
remaining Heuristic vote does raise the result above minByPolicy. -/
theorem minVote_floor_counterexample :
    (∃ l ∈ layersMinHeu24, l.vote = LayerVoteType.Min) ∧
    (∀ l ∈ layersMinHeu24, l.vote ≠ LayerVoteType.Max) ∧
    getRefreshRateForContentV2 catalog_30_60_90 layersMinHeu24 false = rate60 ∧
    getMinRefreshRateByPolicy catalog_30_60_90 = rate30 ∧
    getRefreshRateForContentV2 catalog_30_60_90 layersMinHeu24 false ≠
      getMinRefreshRateByPolicy catalog_30_60_90 := by
  refine ⟨⟨minLayer, by simp [layersMinHeu24], rfl⟩, ?_, v2_minHeu24, minByPolicy_369, ?_⟩
  · intro l hl
    rcases (by simpa [layersMinHeu24] using hl : l = minLayer ∨ l = heuristicLayer 24) with
      rfl | rfl <;> simp [minLayer, heuristicLayer]
  · rw [v2_minHeu24, minByPolicy_369]
    simp [rate60, rate30]

/-- C2 (amended): a `Min` vote yields the minByPolicy floor exactly when
every layer votes `Min` or `NoVote` (and at least one votes `Min`); when
Heuristic/Explicit votes are also present, the `Min` votes are ignored by
the scoring and the result can exceed minByPolicy. -/
theorem min_noVote_only_chooses_minByPolicy (s : RefreshRateConfigs)
    (layers : List LayerRequirement) (touchActive : Bool)
    (hmin : ∃ l ∈ layers, l.vote = LayerVoteType.Min)
    (hall : ∀ l ∈ layers, l.vote = LayerVoteType.Min ∨ l.vote = LayerVoteType.NoVote) :
    getRefreshRateForContentV2 s layers touchActive = getMinRefreshRateByPolicy s := by
  obtain ⟨l, hmem, hv⟩ := hmin
  have hl : l ∈ activeLayers layers := by
    rw [activeLayers]
    exact List.mem_filter.mpr ⟨hmem, by simp [hv]⟩
  have h1 : (activeLayers layers).isEmpty = false := by
    cases hact : activeLayers layers with
    | nil => rw [hact] at hl; exact absurd hl (List.not_mem_nil l)
    | cons a as => rfl
  have h2 : (activeLayers layers).any (fun x => x.vote == LayerVoteType.Max) = false := by
    rw [List.any_eq_false]
    intro x hx
    have hxm := (List.mem_filter.mp hx).1
    rcases hall x hxm with h | h <;> simp [h]
  have h3 : (activeLayers layers).all (fun x => x.vote == LayerVoteType.Min) = true := by
    rw [List.all_eq_true]
    intro x hx
    obtain ⟨hxm, hxf⟩ := List.mem_filter.mp hx
    rcases hall x hxm with h | h
    · simp [h]
    · rw [h] at hxf; simp at hxf
  rw [getRefreshRateForContentV2]
  simp [h1, h2, h3]

/-- C2 witness for the amended claim: a single `Min` layer on the
{60,90}Hz catalog resolves to minByPolicy, namely the 60Hz config. -/
theorem min_noVote_only_chooses_minByPolicy_witness :
    getRefreshRateForContentV2 catalog_60_90 [minLayer] false =
      getMinRefreshRateByPolicy catalog_60_90 ∧
    getMinRefreshRateByPolicy catalog_60_90 = rate60 := by
  constructor
  · exact min_noVote_only_chooses_minByPolicy catalog_60_90 [minLayer] false
      ⟨minLayer, by simp, rfl⟩ (by intro l hl; simp at hl; simp [hl, minLayer])
  · exact minByPolicy_69

/-- C7: appending any number of `NoVote` layers to a layer set never
changes the chosen refresh rate: `NoVote` layers affect neither the
weight sum nor the selection. -/
theorem noVote_layers_preserve_choice (s : RefreshRateConfigs)
    (layers extra : List LayerRequirement) (touchActive : Bool)
    (h : ∀ l ∈ extra, l.vote = LayerVoteType.NoVote) :
    getRefreshRateForContentV2 s (layers ++ extra) touchActive =
      getRefreshRateForContentV2 s layers touchActive := by
  have ha : activeLayers (layers ++ extra) = activeLayers layers := by
    rw [activeLayers, activeLayers, List.filter_append]
    have he : extra.filter (fun l => !(l.vote == LayerVoteType.NoVote)) = [] := by
      rw [List.filter_eq_nil_iff]
      intro a ha'
      simp [h a ha']
    rw [he, List.append_nil]
  rw [getRefreshRateForContentV2, getRefreshRateForContentV2, ha]

/-- C7 witness: adding a `NoVote` layer to a single
ExplicitExactOrMultiple@60 layer on the {60,90}Hz catalog leaves the
chosen rate unchanged. -/
theorem noVote_layers_preserve_choice_witness :
    getRefreshRateForContentV2 catalog_60_90 ([eeomLayer 60] ++ [noVoteLayer]) false =
      getRefreshRateForContentV2 catalog_60_90 [eeomLayer 60] false :=
  noVote_layers_preserve_choice catalog_60_90 [eeomLayer 60] [noVoteLayer] false
    (by intro l hl; simp at hl; simp [hl, noVoteLayer])


/-- C4: on the {30,60,72,90,120}Hz catalog with touch inactive, the
two-layer set {Heuristic@24, Heuristic@60} resolves to 120Hz and
{Heuristic@24, Heuristic@48} resolves to 72Hz: the multi-layer
combination covers both streams rather than letting the higher desired
rate win by nearest-distance snapping. -/
theorem two_heuristic_layers_cover :
    getRefreshRateForContentV2 catalog_30_60_72_90_120 layersHeu24_60 false = rate120 ∧
    getRefreshRateForContentV2 catalog_30_60_72_90_120 layersHeu24_48 false = rate72 :=
  ⟨v2_heu24_60, v2_heu24_48⟩

/-- C5: `setPolicy` rejects a request whose config id is not in the
catalog or whose fps range is invalid for it (does not bracket the
requested default config's fps, or is inverted): the returned code is
negative and no mutation is performed — min/max-by-policy and the current
refresh rate afterwards answer exactly as before the failed call. -/
theorem setPolicy_invalid_no_mutation (s : RefreshRateConfigs) (id : ℕ) (minF maxF : ℚ)
    (h : ∀ r ∈ s.configs, r.configId = id →
      ¬(minF ≤ maxF ∧ minF - fpsEpsilon ≤ r.fps ∧ r.fps ≤ maxF + fpsEpsilon)) :
    (setPolicy s id minF maxF).1 < 0 ∧
    getMinRefreshRateByPolicy (setPolicy s id minF maxF).2 = getMinRefreshRateByPolicy s ∧
    getMaxRefreshRateByPolicy (setPolicy s id minF maxF).2 = getMaxRefreshRateByPolicy s ∧
    getCurrentRefreshRate (setPolicy s id minF maxF).2 = getCurrentRefreshRate s := by
  have hcase : setPolicy s id minF maxF = (-1, s) := by
    rw [setPolicy]
    cases hf : s.configs.find? (fun r => r.configId == id) with
    | none => rfl
    | some r =>
      have hrmem : r ∈ s.configs := List.mem_of_find?_eq_some hf
      have hrid : r.configId = id := by
        have := List.find?_some hf
        simpa using this
      have hneg := h r hrmem hrid
      show (if minF ≤ maxF ∧ minF - fpsEpsilon ≤ r.fps ∧ r.fps ≤ maxF + fpsEpsilon then
          ((0 : ℤ), { s with policy := ⟨id, minF, maxF⟩ })
        else ((-1 : ℤ), s)) = ((-1 : ℤ), s)
      rw [if_neg hneg]
  rw [hcase]
  norm_num

/-- C5 witness: on a {60Hz}-only catalog, `setPolicy(60Hz-config, 20, 40)`
(the range brackets no valid config at the requested default) is rejected
with a negative code and mutates nothing. -/
theorem setPolicy_invalid_no_mutation_witness :
    (setPolicy catalog_60 0 20 40).1 < 0 ∧
    getMinRefreshRateByPolicy (setPolicy catalog_60 0 20 40).2 =
      getMinRefreshRateByPolicy catalog_60 ∧
    getMaxRefreshRateByPolicy (setPolicy catalog_60 0 20 40).2 =
      getMaxRefreshRateByPolicy catalog_60 ∧
    getCurrentRefreshRate (setPolicy catalog_60 0 20 40).2 =
      getCurrentRefreshRate catalog_60 := by
  apply setPolicy_invalid_no_mutation
  intro r hr _
  have : r = rate60 := by simpa [catalog_60] using hr
  subst this
  norm_num [rate60, fpsEpsilon]

/-- C6: for the same layer set, `touchActive = true` never yields a lower
rate than `touchActive = false` (touch never demotes the refresh rate). -/
theorem touch_boost_never_demotes (s : RefreshRateConfigs)
    (layers : List LayerRequirement) (h2 : 2 ≤ (allowedRates s).length) :
    (getRefreshRateForContentV2 s layers false).fps ≤
      (getRefreshRateForContentV2 s layers true).fps := by
  rw [getRefreshRateForContentV2, getRefreshRateForContentV2]
  cases he : (activeLayers layers).isEmpty
  · cases hmax : (activeLayers layers).any (fun l => l.vote == LayerVoteType.Max)
    · cases hmin : (activeLayers layers).all (fun l => l.vote == LayerVoteType.Min)
      · simp only [he, hmax, hmin, Bool.false_eq_true, if_false, if_true]
        cases hall : allowedRates s with
        | nil => rw [hall] at h2; simp at h2
        | cons r rs =>
          rw [getMaxRefreshRateByPolicy, hall]
          simp only []
          have hmem := pickBest_mem (fun c => configScore (activeLayers layers) c.fps) r rs
          exact argmaxFps_ge r rs _ hmem
      · simp [he, hmax, hmin]
    · simp [he, hmax]
  · simp [he]

/-- C6 witness: on the {60,90}Hz catalog (two allowed configs) with the
layer set {ExplicitExactOrMultiple@60, NoVote}, the rate chosen with touch
active is at least the rate chosen with touch inactive. -/
theorem touch_boost_never_demotes_witness :
    2 ≤ (allowedRates catalog_60_90).length ∧
    (getRefreshRateForContentV2 catalog_60_90 [eeomLayer 60, noVoteLayer] false).fps ≤
      (getRefreshRateForContentV2 catalog_60_90 [eeomLayer 60, noVoteLayer] true).fps := by
  have hlen : 2 ≤ (allowedRates catalog_60_90).length := by rw [allowedRates_69]; simp
  exact ⟨hlen, touch_boost_never_demotes catalog_60_90 [eeomLayer 60, noVoteLayer] hlen⟩


theorem activeLayers_heu45 : activeLayers [heuristicLayer 45] = [heuristicLayer 45] := by
  with_unfolding_all decide

theorem score_heu45_at60 : configScore [heuristicLayer 45] 60 = 1 / 3 := by
  with_unfolding_all decide

theorem score_heu45_at90 : configScore [heuristicLayer 45] 90 = 1 := by
  with_unfolding_all decide

theorem v2_heu45 :
    getRefreshRateForContentV2 catalog_60_90 [heuristicLayer 45] false = rate90 := by
  rw [getRefreshRateForContentV2]
  simp only [allowedRates_69, activeLayers_heu45]
  simp only [pickBest, List.foldl_cons, List.foldl_nil]
  norm_num [rate60, rate90, score_heu45_at60, score_heu45_at90]
  simp [heuristicLayer]

theorem configScore_singleton (l : LayerRequirement) (f : ℚ) :
    configScore [l] f = layerScore l f := by
  simp [configScore]

/-- C3 counterexample: on the {60,90}Hz catalog, a single Heuristic layer
desiring 45fps resolves to the 90Hz config, although the config nearest to
45 by absolute fps distance is the 60Hz config: the snapping is not
nearest-by-absolute-distance. -/
theorem nearest_fps_distance_counterexample :
    getRefreshRateForContentV2 catalog_60_90 [heuristicLayer 45] false = rate90 ∧
    |45 - rate60.fps| < |45 - rate90.fps| ∧
    rate90 ≠ rate60 := by
  refine ⟨v2_heu45, ?_, ?_⟩
  · norm_num [rate60, rate90]
  · simp [rate60, rate90]

set_option maxHeartbeats 1000000 in
/-- C3 (amended): for a single-layer set with vote type Heuristic or
ExplicitDefault, positive weight and desired rate `d` (touch inactive),
whenever some policy-allowed config's fps is an exact integer multiple of
`d`, the chosen config is the lowest-fps such multiple — on {60,90}Hz a
45fps vote yields 90Hz (= 2·45) and a 30fps vote yields 60Hz (the lower of
the two multiples 60 and 90); plain nearest-by-absolute-distance does not
hold in general. -/
theorem single_layer_prefers_exact_multiple (s : RefreshRateConfigs)
    (l : LayerRequirement)
    (hv : l.vote = LayerVoteType.Heuristic ∨ l.vote = LayerVoteType.ExplicitDefault)
    (hw : 0 < l.weight) (hd : 0 < l.desiredRefreshRate)
    (hfps : ∀ r ∈ allowedRates s, 0 < r.fps)
    (hM : (allowedRates s).filter
      (fun r => isMultipleOfB r.fps l.desiredRefreshRate) ≠ []) :
    getRefreshRateForContentV2 s [l] false ∈
      (allowedRates s).filter (fun r => isMultipleOfB r.fps l.desiredRefreshRate) ∧
    ∀ r ∈ (allowedRates s).filter (fun r => isMultipleOfB r.fps l.desiredRefreshRate),
      (getRefreshRateForContentV2 s [l] false).fps ≤ r.fps := by
  have hvne1 : (l.vote == LayerVoteType.NoVote) = false := by
    rcases hv with hv | hv <;> simp [hv]
  have hact : activeLayers [l] = [l] := by
    rw [activeLayers]
    simp [List.filter_cons, hvne1]
  have h1 : ([l] : List LayerRequirement).isEmpty = false := rfl
  have h2 : ([l] : List LayerRequirement).any (fun x => x.vote == LayerVoteType.Max) = false := by
    rcases hv with hv | hv <;> simp [hv]
  have h3 : ([l] : List LayerRequirement).all (fun x => x.vote == LayerVoteType.Min) = false := by
    rcases hv with hv | hv <;> simp [hv]
  obtain ⟨r0, rs0, hall⟩ : ∃ r0 rs0, allowedRates s = r0 :: rs0 := by
    cases hac : allowedRates s with
    | nil => rw [hac] at hM; simp at hM
    | cons a as => exact ⟨a, as, rfl⟩
  have hres : getRefreshRateForContentV2 s [l] false =
      pickBest (fun c => configScore [l] c.fps) r0 rs0 := by
    rw [getRefreshRateForContentV2]
    simp only [hact, hall]
    simp only [h1, h2, h3, Bool.false_eq_true, if_false]
  rw [hres]
  have hgs : ∀ c : RefreshRate,
      configScore [l] c.fps = layerScore l c.fps := fun c => configScore_singleton l c.fps
  have hmem : pickBest (fun c => configScore [l] c.fps) r0 rs0 ∈ r0 :: rs0 :=
    pickBest_mem _ r0 rs0
  have hle := pickBest_le (fun c => configScore [l] c.fps) r0 rs0
  have hmemA : pickBest (fun c => configScore [l] c.fps) r0 rs0 ∈ allowedRates s := by
    rw [hall]; exact hmem
  obtain ⟨m0, hm0f⟩ : ∃ m0, m0 ∈ (allowedRates s).filter
      (fun r => isMultipleOfB r.fps l.desiredRefreshRate) :=
    List.exists_mem_of_ne_nil _ hM
  obtain ⟨hm0A, hm0b⟩ := List.mem_filter.mp hm0f
  have hm0mult : isMultipleOf m0.fps l.desiredRefreshRate := (isMultipleOfB_iff hd).mp hm0b
  have hm0w : configScore [l] m0.fps = l.weight := by
    rw [hgs m0]
    exact (layerScore_eq_weight_iff hv hw hd (hfps m0 hm0A)).mpr hm0mult
  have hbw : configScore [l] (pickBest (fun c => configScore [l] c.fps) r0 rs0).fps ≤
      l.weight := by
    rw [hgs]
    exact layerScore_le_weight hv hw hd
  have hm0le := (hle m0 (by rw [← hall]; exact hm0A)).1
  have hgeq : configScore [l] (pickBest (fun c => configScore [l] c.fps) r0 rs0).fps =
      l.weight := le_antisymm hbw (hm0w ▸ hm0le)
  have hbmult : isMultipleOf
      (pickBest (fun c => configScore [l] c.fps) r0 rs0).fps l.desiredRefreshRate := by
    rw [hgs] at hgeq
    exact (layerScore_eq_weight_iff hv hw hd (hfps _ hmemA)).mp hgeq
  constructor
  · exact List.mem_filter.mpr ⟨hmemA, (isMultipleOfB_iff hd).mpr hbmult⟩
  · intro r hr
    obtain ⟨hrA, hrb⟩ := List.mem_filter.mp hr
    have hrmult := (isMultipleOfB_iff hd).mp hrb
    have hrw : configScore [l] r.fps = l.weight := by
      rw [hgs r]
      exact (layerScore_eq_weight_iff hv hw hd (hfps r hrA)).mpr hrmult
    have hrmem : r ∈ r0 :: rs0 := by rw [← hall]; exact hrA
    exact (hle r hrmem).2 (by rw [hrw, hgeq])

/-- C3 witness: on the {60,90}Hz catalog, the Heuristic@45 layer's chosen
config is among the exact multiples of 45 in the allowed set and is
fps-minimal among them. -/
theorem single_layer_prefers_exact_multiple_witness :
    getRefreshRateForContentV2 catalog_60_90 [heuristicLayer 45] false ∈
      (allowedRates catalog_60_90).filter
        (fun r => isMultipleOfB r.fps (heuristicLayer 45).desiredRefreshRate) ∧
    ∀ r ∈ (allowedRates catalog_60_90).filter
        (fun r => isMultipleOfB r.fps (heuristicLayer 45).desiredRefreshRate),
      (getRefreshRateForContentV2 catalog_60_90 [heuristicLayer 45] false).fps ≤ r.fps :=
  single_layer_prefers_exact_multiple catalog_60_90 (heuristicLayer 45)
    (Or.inl rfl)
    (by norm_num [heuristicLayer])
    (by norm_num [heuristicLayer])
    (by with_unfolding_all decide)
    (by with_unfolding_all decide)



theorem getMinRefreshRate_69 : getMinRefreshRate catalog_60_90 = rate60 := by
  have hc : catalog_60_90.configs = [rate60, rate90] := rfl
  simp only [getMinRefreshRate, hc, argminFps, List.foldl_cons, List.foldl_nil]
  norm_num [rate60, rate90]

theorem getMaxRefreshRate_69 : getMaxRefreshRate catalog_60_90 = rate90 := by
  have hc : catalog_60_90.configs = [rate60, rate90] := rfl
  simp only [getMaxRefreshRate, hc, argmaxFps, List.foldl_cons, List.foldl_nil]
  norm_num [rate60, rate90]

end scheduler

/-- C8: `Scheduler::calculateRefreshRateType` applies exactly the priority
order of the spec, first match winning: (1) switching unsupported → the
current config; (2) display power not normal or the display-power timer in
Reset → maxByPolicy; (3) touch Active → maxByPolicy; (4) idle timer
Expired → minByPolicy; (5) content detection Off → maxByPolicy;
(6) otherwise the config chosen for the detected content refresh rate. -/
theorem Scheduler.calculateRefreshRateType_priority
    (c : Scheduler.RefreshRateQueries) (fs : Scheduler.SchedulerFeatures) :
    Scheduler.calculateRefreshRateType c fs =
      Scheduler.calculateRefreshRateTypePriority c fs := by
  rw [Scheduler.calculateRefreshRateType, Scheduler.calculateRefreshRateTypePriority]
  simp only [Scheduler.firstMatching]

/-- C9: when the hardware-composer query for device composition changes
fails, `chooseCompositionStrategy` falls back to client-only composition:
the display state reports client composition and no device composition,
and the function returns normally (the error is consumed, not fatal). -/
theorem compositionengine.chooseCompositionStrategy_hwc_error
    (id : ℕ) (anyClient : Bool)
    (q : ℕ → Bool → Except ℤ (Option compositionengine.DeviceRequestedChanges))
    (anyDevice allDevice : Bool) (e : ℤ) (h : q id anyClient = Except.error e) :
    compositionengine.chooseCompositionStrategy (some id) anyClient q anyDevice allDevice =
      ⟨true, false⟩ := by
  rw [compositionengine.chooseCompositionStrategy]
  simp [h]

/-- C9 witness: a query that fails with INVALID_OPERATION yields the
client-only fallback state. -/
theorem compositionengine.chooseCompositionStrategy_hwc_error_witness :
    compositionengine.chooseCompositionStrategy (some 0) false
      (fun _ _ => Except.error (-38)) false true = ⟨true, false⟩ :=
  compositionengine.chooseCompositionStrategy_hwc_error 0 false
    (fun _ _ => Except.error (-38)) false true (-38) rfl

/-- C10: when content detection is enabled, `Scheduler::registerLayer`
registers a wallpaper-window layer in layer history with its high fps
bound equal to its low fps bound (both the catalog's minimum fps), and
every other layer with the high bound equal to the catalog's maximum fps
— so a wallpaper layer can never raise the content-detected rate above
the minimum. -/
theorem Scheduler.registerLayer_wallpaper_caps_at_min
    (s : scheduler.RefreshRateConfigs) (windowType : ℕ) :
    (windowType = Scheduler.TYPE_WALLPAPER →
      Scheduler.registerLayer true windowType s =
        some ((scheduler.getMinRefreshRate s).fps, (scheduler.getMinRefreshRate s).fps)) ∧
    (windowType ≠ Scheduler.TYPE_WALLPAPER →
      Scheduler.registerLayer true windowType s =
        some ((scheduler.getMinRefreshRate s).fps, (scheduler.getMaxRefreshRate s).fps)) := by
  constructor
  · intro h
    subst h
    simp [Scheduler.registerLayer]
  · intro h
    simp [Scheduler.registerLayer, h]

/-- C10 witness: on the {60,90}Hz catalog, a wallpaper layer is registered
with bounds (60, 60) while an ordinary layer (window type 1) gets
(60, 90). -/
theorem Scheduler.registerLayer_wallpaper_caps_at_min_witness :
    Scheduler.registerLayer true Scheduler.TYPE_WALLPAPER scheduler.catalog_60_90 =
      some (60, 60) ∧
    Scheduler.registerLayer true 1 scheduler.catalog_60_90 = some (60, 90) := by
  have h1 := (Scheduler.registerLayer_wallpaper_caps_at_min scheduler.catalog_60_90
    Scheduler.TYPE_WALLPAPER).1 rfl
  have h2 := (Scheduler.registerLayer_wallpaper_caps_at_min scheduler.catalog_60_90 1).2
    (by rw [Scheduler.TYPE_WALLPAPER]; norm_num)
  rw [scheduler.getMinRefreshRate_69] at h1 h2
  rw [scheduler.getMaxRefreshRate_69] at h2
  constructor
  · rw [h1]
    norm_num [scheduler.rate60]
  · rw [h2]
    norm_num [scheduler.rate60, scheduler.rate90]
